import Mathlib

/-!
Shallow embedding of the snake-game engine in `src/贪吃蛇/game.js`
(class `SnakeGame`), and proofs about its tick, collision, food,
direction-buffering, lifecycle and scoring behaviour.

Modelling conventions:
* A grid cell / direction vector is a pair of integers (`Pos`), matching the
  JS objects `{x, y}` compared coordinate-wise with `===`.
* The engine state is the record `GameState`, holding exactly the fields of
  the JS instance the engine logic reads or writes.  Rendering (`draw`,
  `drawGrid`, …), audio (`playSound`), and DOM updates (`showOverlay`,
  `updateScoreDisplay`, `updateButtonStates`) mutate nothing the engine
  reads back, so they are dropped.
* `Math.random()`-based food placement is modelled by threading an explicit
  stream of pre-drawn candidate cells (`draws : List Pos`); `generateFood`
  returns the first candidate not on the snake, or `none` when the stream is
  exhausted (the JS `do … while` loop would keep drawing).  Operations that
  may draw therefore return `Option GameState`; `none` only arises from an
  exhausted stream or from calling `update` with an empty snake, which the
  JS code never does (the snake always has ≥ 3 segments in reachable states).
* The `setInterval`/`clearInterval` timer is modelled by `activeInterval`
  (the interval of the live schedule, `none` after `clearInterval`) together
  with `scheduleCount` (how many `setInterval` calls were ever made, so that
  tearing a schedule down and re-arming it is observable).
* `localStorage` is modelled by the read-side input `item : Option String`
  (the result of `getItem('snakeHighScore')`, `none` for an absent key or an
  unavailable store) and the write-side log `storeWrites : List Int` (the
  values passed to `setItem`, oldest first).
-/

/-- Grid cell or direction vector: the JS `{x, y}` object, compared
coordinate-wise. -/
structure Pos where
  x : Int
  y : Int
deriving DecidableEq, Repr

/-- Engine state: the fields of the JS `SnakeGame` instance that the engine
logic reads or writes, plus the timer/storage models described above. -/
structure GameState where
  tileCount : Int
  snake : List Pos
  food : Pos
  direction : Pos
  nextDirection : Pos
  score : Int
  highScore : Int
  gameSpeed : Nat
  isGameRunning : Bool
  isPaused : Bool
  activeInterval : Option Nat
  scheduleCount : Nat
  storeWrites : List Int
deriving DecidableEq, Repr

/-- Model of `isSnakeOnPosition(x, y)`: whether some snake segment has the
given coordinates (`this.snake.some(segment => segment.x === x && segment.y === y)`). -/
def isSnakeOnPosition (snake : List Pos) (x y : Int) : Bool :=
  snake.any fun segment => segment.x == x && segment.y == y

/-- Model of `generateFood()`: keep drawing random cells until one is not on
the snake.  The random draws are the explicit stream `draws`; the JS loop
corresponds to returning the first draw not on the snake, and `none` models
an exhausted stream (the JS loop would simply draw again). -/
def generateFood (snake : List Pos) : List Pos → Option Pos
  | [] => none
  | c :: rest =>
    if isSnakeOnPosition snake c.x c.y then generateFood snake rest
    else some c

/-- Model of `checkCollision(head)`: true when the head is out of bounds
(`head.x < 0 || head.x >= tileCount || head.y < 0 || head.y >= tileCount`)
or equals some cell of the (pre-move) snake body. -/
def checkCollision (tileCount : Int) (snake : List Pos) (head : Pos) : Bool :=
  if head.x < 0 ∨ head.x ≥ tileCount ∨ head.y < 0 ∨ head.y ≥ tileCount then
    true
  else
    snake.any fun segment => head.x == segment.x && head.y == segment.y

/-- Model of `stopGame()`: clear both lifecycle flags and cancel the timer
(`clearInterval(this.gameLoop)`).  The DOM-only `updateButtonStates()` call
is dropped. -/
def stopGame (s : GameState) : GameState :=
  { s with isGameRunning := false, isPaused := false, activeInterval := none }

/-- Model of `gameOver()`: stop the game, then if `score > highScore` update
the high score and write it to the store once (`localStorage.setItem`).
The audio and overlay calls are dropped. -/
def gameOver (s : GameState) : GameState :=
  let s1 := stopGame s
  if s1.highScore < s1.score then
    { s1 with highScore := s1.score, storeWrites := s1.storeWrites ++ [s1.score] }
  else
    s1

/-- Model of `update()` (one tick): commit `nextDirection` into `direction`,
compute the candidate head, end the game on collision, otherwise prepend the
head; on eating, add 10 to the score and regenerate food (no tail removal);
otherwise pop the tail.  The `draw()` call is dropped.  `none` models the
two situations where the JS code would not return normally: an empty snake
(`this.snake[0]` is `undefined`; never reachable) and an exhausted draw
stream inside `generateFood`. -/
def update (s : GameState) (draws : List Pos) : Option GameState :=
  let s1 := { s with direction := s.nextDirection }
  match s.snake with
  | [] => none
  | h0 :: _ =>
    let head : Pos := ⟨h0.x + s1.direction.x, h0.y + s1.direction.y⟩
    if checkCollision s1.tileCount s1.snake head then
      some (gameOver s1)
    else
      let s2 := { s1 with snake := head :: s1.snake }
      if head.x == s2.food.x && head.y == s2.food.y then
        let s3 := { s2 with score := s2.score + 10 }
        match generateFood s3.snake draws with
        | none => none
        | some f => some { s3 with food := f }
      else
        some { s2 with snake := s2.snake.dropLast }

/-- The initial snake body set by `resetGame()`. -/
def initialSnake : List Pos := [⟨10, 10⟩, ⟨9, 10⟩, ⟨8, 10⟩]

/-- Model of `resetGame()`: initial 3-segment snake, direction and pending
direction `(1,0)`, score 0, fresh food. -/
def resetGame (s : GameState) (draws : List Pos) : Option GameState :=
  let s1 := { s with snake := initialSnake, direction := ⟨1, 0⟩,
                     nextDirection := ⟨1, 0⟩, score := 0 }
  match generateFood s1.snake draws with
  | none => none
  | some f => some { s1 with food := f }

/-- Model of `startGame()`: no-op guard while already running; otherwise
reset, set the flags, and arm the tick timer at `gameSpeed`. -/
def startGame (s : GameState) (draws : List Pos) : Option GameState :=
  if s.isGameRunning then some s
  else
    match resetGame s draws with
    | none => none
    | some s1 =>
      some { s1 with isGameRunning := true, isPaused := false,
                     activeInterval := some s1.gameSpeed,
                     scheduleCount := s1.scheduleCount + 1 }

/-- Model of `pauseGame()`: no-op unless running and not paused; otherwise
set the paused flag and cancel the timer. -/
def pauseGame (s : GameState) : GameState :=
  if !s.isGameRunning || s.isPaused then s
  else { s with isPaused := true, activeInterval := none }

/-- Model of `resumeGame()`: no-op unless running and paused; otherwise
clear the paused flag and re-arm the timer at `gameSpeed`. -/
def resumeGame (s : GameState) : GameState :=
  if !s.isGameRunning || !s.isPaused then s
  else { s with isPaused := false, activeInterval := some s.gameSpeed,
                scheduleCount := s.scheduleCount + 1 }

/-- Model of `restartGame()`: `stopGame()` followed by `startGame()`. -/
def restartGame (s : GameState) (draws : List Pos) : Option GameState :=
  startGame (stopGame s) draws

/-- Model of `setDifficulty(difficulty)`: map the three known levels to
speeds 200/150/100 (the `switch` has no default, so any other level leaves
`gameSpeed` unchanged); then, if running and not paused, tear down the
schedule and re-arm it at the (possibly unchanged) current speed. -/
def setDifficulty (s : GameState) (difficulty : String) : GameState :=
  let s1 :=
    if difficulty == "easy" then { s with gameSpeed := 200 }
    else if difficulty == "medium" then { s with gameSpeed := 150 }
    else if difficulty == "hard" then { s with gameSpeed := 100 }
    else s
  if s1.isGameRunning && !s1.isPaused then
    { s1 with activeInterval := some s1.gameSpeed,
              scheduleCount := s1.scheduleCount + 1 }
  else
    s1

/-- Model of `changeDirection(newDirection)`: reject a proposal whose
nonzero axis is already nonzero in the *current* direction, otherwise
overwrite the pending direction `nextDirection`. -/
def changeDirection (s : GameState) (nd : Pos) : GameState :=
  if nd.x != 0 && s.direction.x != 0 then s
  else if nd.y != 0 && s.direction.y != 0 then s
  else { s with nextDirection := ⟨nd.x, nd.y⟩ }

/-- Model of JavaScript `parseInt` on the decimal strings relevant to the
stored high score: skip leading whitespace, read an optional sign and then a
maximal run of decimal digits; `none` models `NaN` (no digits).  Radix
prefixes such as `0x` are not modelled: the store's only writer
(`gameOver`) writes plain decimal integers. -/
def parseDigits (cs : List Char) : Option Nat :=
  let ds := cs.takeWhile fun c => decide ('0' ≤ c) && decide (c ≤ '9')
  if ds.isEmpty then none
  else some (ds.foldl (fun acc c => acc * 10 + (c.toNat - '0'.toNat)) 0)

/-- See `parseDigits`; this adds the whitespace-skip and the optional sign. -/
def parseIntJS (str : String) : Option Int :=
  let cs := str.toList.dropWhile fun c => c == ' ' || c == '\t' || c == '\n' || c == '\r'
  match cs with
  | '-' :: rest => (parseDigits rest).map fun n => -(n : Int)
  | '+' :: rest => (parseDigits rest).map fun n => (n : Int)
  | rest => (parseDigits rest).map fun n => (n : Int)

/-- Model of the constructor expression
`parseInt(localStorage.getItem('snakeHighScore')) || 0`: an absent key gives
`null`, `parseInt(null)` is `NaN`, and `NaN || 0` is `0`; a non-numeric
string likewise gives 0; otherwise the parsed integer (for the value 0 the
`|| 0` fallback also yields 0, so it is the identity there). -/
def readHighScore (item : Option String) : Int :=
  match item with
  | none => 0
  | some str =>
    match parseIntJS str with
    | none => 0
    | some n => n

/-- Model of the `SnakeGame` constructor field initialisation, before
`init()` runs: `tileCount = 400 / 20 = 20`, empty snake, zero direction, a
placeholder food cell (the JS `this.food = {}` placeholder is overwritten by
`init()`'s `resetGame()` before any read), `gameSpeed = 150`, both lifecycle
flags false, no timer, no store writes yet. -/
def constructorState (item : Option String) : GameState :=
  { tileCount := 20, snake := [], food := ⟨0, 0⟩, direction := ⟨0, 0⟩,
    nextDirection := ⟨0, 0⟩, score := 0, highScore := readHighScore item,
    gameSpeed := 150, isGameRunning := false, isPaused := false,
    activeInterval := none, scheduleCount := 0, storeWrites := [] }

/-- Model of constructing the game: the constructor followed by the part of
`init()` that touches engine state (`resetGame()`; `initAudio`,
`bindEvents`, the display updates and `draw()` touch none of it). -/
def mkGame (item : Option String) (draws : List Pos) : Option GameState :=
  resetGame (constructorState item) draws

/-- The public commands the UI layer can invoke on the engine, each carrying
the random-draw stream it may consume. -/
inductive Cmd where
  | start (draws : List Pos)
  | pause
  | resume
  | restart (draws : List Pos)
  | stop
  | tick (draws : List Pos)
  | changeDir (d : Pos)
  | setDiff (level : String)

/-- Run one public command (a tick being the scheduler's invocation of
`update`). -/
def execCmd (s : GameState) : Cmd → Option GameState
  | .start draws => startGame s draws
  | .pause => some (pauseGame s)
  | .resume => some (resumeGame s)
  | .restart draws => restartGame s draws
  | .stop => some (stopGame s)
  | .tick draws => update s draws
  | .changeDir d => some (changeDirection s d)
  | .setDiff level => some (setDifficulty s level)

/-- Whether a command is one of the two game-(re)starting commands. -/
def Cmd.isStartLike : Cmd → Bool
  | .start _ => true
  | .restart _ => true
  | _ => false

/-- A burst of direction requests between two tick boundaries: each one is a
`changeDirection` call (the tick handler runs strictly before or after the
whole burst, never interleaved). -/
def applyRequests (s : GameState) (reqs : List Pos) : GameState :=
  reqs.foldl changeDirection s

/-- The legal-flag-combination invariant: the boolean-pair encoding never
reaches `isPaused = true` with `isGameRunning = false`. -/
def flagsOK (s : GameState) : Prop :=
  s.isPaused = true → s.isGameRunning = true

/-! ### Demo states for witnesses -/

/-- A concrete running state: the spec's scenario board (`tileCount = 20`,
snake `[(10,10),(9,10),(8,10)]`, direction `(1,0)`). -/
def demoRun : GameState :=
  { tileCount := 20, snake := [⟨10, 10⟩, ⟨9, 10⟩, ⟨8, 10⟩], food := ⟨5, 5⟩,
    direction := ⟨1, 0⟩, nextDirection := ⟨1, 0⟩, score := 0, highScore := 0,
    gameSpeed := 150, isGameRunning := true, isPaused := false,
    activeInterval := some 150, scheduleCount := 1, storeWrites := [] }

/-- `demoRun` after one non-eating tick. -/
def demoRunMoved : GameState :=
  { demoRun with snake := [⟨11, 10⟩, ⟨10, 10⟩, ⟨9, 10⟩] }

/-- The spec's game-over scenario: head at `(19,10)`, direction `(1,0)`,
`tileCount = 20`. -/
def demoEdge : GameState :=
  { demoRun with snake := [⟨19, 10⟩, ⟨18, 10⟩, ⟨17, 10⟩] }

/-- The spec's high-score scenario: score 120, stored high score 100, at
the moment the game-over transition fires. -/
def demoScore : GameState :=
  { demoRun with score := 120, highScore := 100 }

/-- The state produced by calling `startGame` (with draw stream `[(0,0)]`)
on the game-over state reached from `demoRun`. -/
def demoStarted : GameState :=
  { tileCount := 20, snake := initialSnake, food := ⟨0, 0⟩,
    direction := ⟨1, 0⟩, nextDirection := ⟨1, 0⟩, score := 0, highScore := 0,
    gameSpeed := 150, isGameRunning := true, isPaused := false,
    activeInterval := some 150, scheduleCount := 2, storeWrites := [] }

/-- The state produced by constructing the game with an empty store and
draw stream `[(0,0)]`. -/
def demoFresh : GameState :=
  { tileCount := 20, snake := initialSnake, food := ⟨0, 0⟩,
    direction := ⟨1, 0⟩, nextDirection := ⟨1, 0⟩, score := 0, highScore := 0,
    gameSpeed := 150, isGameRunning := false, isPaused := false,
    activeInterval := none, scheduleCount := 0, storeWrites := [] }

/-! ### Helper lemmas -/

theorem Pos.eq_iff (a b : Pos) : a = b ↔ a.x = b.x ∧ a.y = b.y := by
  cases a
  cases b
  simp

theorem isSnakeOnPosition_iff (snake : List Pos) (p : Pos) :
    isSnakeOnPosition snake p.x p.y = true ↔ p ∈ snake := by
  simp only [isSnakeOnPosition, List.any_eq_true, Bool.and_eq_true, beq_iff_eq]
  constructor
  · rintro ⟨seg, hmem, hx, hy⟩
    have : seg = p := (Pos.eq_iff seg p).mpr ⟨hx, hy⟩
    exact this ▸ hmem
  · intro hmem
    exact ⟨p, hmem, rfl, rfl⟩

theorem generateFood_spec (snake : List Pos) (draws : List Pos) (f : Pos)
    (h : generateFood snake draws = some f) :
    isSnakeOnPosition snake f.x f.y = false ∧ f ∈ draws := by
  induction draws with
  | nil => simp [generateFood] at h
  | cons c rest ih =>
    by_cases hc : isSnakeOnPosition snake c.x c.y = true
    · simp only [generateFood] at h
      rw [if_pos hc] at h
      rcases ih h with ⟨h1, h2⟩
      exact ⟨h1, List.mem_cons_of_mem _ h2⟩
    · simp only [generateFood] at h
      rw [if_neg hc] at h
      simp only [Option.some.injEq] at h
      subst h
      exact ⟨Bool.eq_false_iff.mpr hc, List.mem_cons_self _ _⟩

theorem generateFood_not_mem (snake : List Pos) (draws : List Pos) (f : Pos)
    (h : generateFood snake draws = some f) : f ∉ snake := by
  have h1 := (generateFood_spec snake draws f h).1
  intro hmem
  rw [(isSnakeOnPosition_iff snake f).mpr hmem] at h1
  exact Bool.true_eq_false.mp h1

theorem update_cons (s : GameState) (draws : List Pos) (h0 : Pos)
    (rest : List Pos) (hs : s.snake = h0 :: rest) :
    update s draws =
      (if checkCollision s.tileCount (h0 :: rest)
            ⟨h0.x + s.nextDirection.x, h0.y + s.nextDirection.y⟩ then
        some (gameOver { s with direction := s.nextDirection })
      else if (h0.x + s.nextDirection.x == s.food.x &&
               h0.y + s.nextDirection.y == s.food.y) then
        match generateFood
            (⟨h0.x + s.nextDirection.x, h0.y + s.nextDirection.y⟩ :: h0 :: rest)
            draws with
        | none => none
        | some f =>
          some { s with direction := s.nextDirection,
                        snake := ⟨h0.x + s.nextDirection.x,
                                  h0.y + s.nextDirection.y⟩ :: h0 :: rest,
                        score := s.score + 10, food := f }
      else
        some { s with direction := s.nextDirection,
                      snake := (⟨h0.x + s.nextDirection.x,
                                 h0.y + s.nextDirection.y⟩ :: h0 :: rest).dropLast }) := by
  unfold update
  rw [hs]

theorem gameOver_fields (s : GameState) :
    (gameOver s).snake = s.snake ∧ (gameOver s).food = s.food ∧
    (gameOver s).score = s.score ∧ (gameOver s).isGameRunning = false ∧
    (gameOver s).isPaused = false ∧ (gameOver s).activeInterval = none := by
  by_cases h : s.highScore < s.score <;> simp [gameOver, stopGame, h]

theorem changeDirection_direction (s : GameState) (d : Pos) :
    (changeDirection s d).direction = s.direction := by
  unfold changeDirection
  split
  · rfl
  · split <;> rfl

/-! ### Claim theorems -/

/-- C1: for every tick executed while running whose candidate head cell
(current head plus the committed direction) is in bounds and not on the
snake body, the candidate cell is prepended as the new head; if the
candidate equals the food cell then the score increases by exactly 10, the
food is regenerated by `generateFood` on the grown snake, and the snake
length after the tick is the length before plus 1; otherwise the tail cell
is removed and the length is unchanged. -/
theorem tick_no_collision_spec (s s' : GameState) (draws : List Pos)
    (h0 hd : Pos) (rest : List Pos)
    (hs : s.snake = h0 :: rest)
    (hrun : s.isGameRunning = true)
    (hhd : hd = ⟨h0.x + s.nextDirection.x, h0.y + s.nextDirection.y⟩)
    (hnc : checkCollision s.tileCount s.snake hd = false)
    (hu : update s draws = some s') :
    (hd = s.food →
        s'.snake = hd :: s.snake ∧ s'.snake.length = s.snake.length + 1 ∧
        s'.score = s.score + 10 ∧
        generateFood (hd :: s.snake) draws = some s'.food) ∧
    (hd ≠ s.food →
        s'.snake = (hd :: s.snake).dropLast ∧
        s'.snake.length = s.snake.length ∧
        s'.score = s.score ∧ s'.food = s.food) := by
  subst hhd
  rw [update_cons s draws h0 rest hs] at hu
  rw [hs] at hnc
  rw [if_neg (by rw [hnc]; exact Bool.false_ne_true)] at hu
  by_cases heat :
      (h0.x + s.nextDirection.x == s.food.x &&
       h0.y + s.nextDirection.y == s.food.y) = true
  · rw [if_pos heat] at hu
    have hfood : (⟨h0.x + s.nextDirection.x, h0.y + s.nextDirection.y⟩ : Pos)
        = s.food := by
      simp only [Bool.and_eq_true, beq_iff_eq] at heat
      exact (Pos.eq_iff _ _).mpr ⟨heat.1, heat.2⟩
    cases hgen : generateFood
        (⟨h0.x + s.nextDirection.x, h0.y + s.nextDirection.y⟩ :: h0 :: rest)
        draws with
    | none => rw [hgen] at hu; exact absurd hu (by simp)
    | some f =>
      rw [hgen] at hu
      simp only [Option.some.injEq] at hu
      subst hu
      constructor
      · intro _
        refine ⟨by rw [hs], by rw [hs]; simp, by simp, ?_⟩
        rw [hs]
        simpa using hgen
      · intro hne
        exact absurd hfood hne
  · rw [if_neg heat] at hu
    simp only [Option.some.injEq] at hu
    subst hu
    have hnfood : (⟨h0.x + s.nextDirection.x, h0.y + s.nextDirection.y⟩ : Pos)
        ≠ s.food := by
      intro he
      apply heat
      rw [Pos.eq_iff] at he
      simp only [Bool.and_eq_true, beq_iff_eq]
      exact ⟨he.1, he.2⟩
    constructor
    · intro he
      exact absurd he hnfood
    · intro _
      refine ⟨by rw [hs], ?_, by simp, by simp⟩
      rw [hs]
      simp [List.length_dropLast]

/-- C1 witness: a concrete non-eating tick from `demoRun`. -/
theorem tick_no_collision_spec_witness :
    demoRun.snake = ⟨10, 10⟩ :: [⟨9, 10⟩, ⟨8, 10⟩] ∧
    demoRun.isGameRunning = true ∧
    checkCollision demoRun.tileCount demoRun.snake ⟨11, 10⟩ = false ∧
    update demoRun [] = some demoRunMoved ∧
    ((⟨11, 10⟩ : Pos) ≠ demoRun.food →
        demoRunMoved.snake = ((⟨11, 10⟩ : Pos) :: demoRun.snake).dropLast ∧
        demoRunMoved.snake.length = demoRun.snake.length ∧
        demoRunMoved.score = demoRun.score ∧
        demoRunMoved.food = demoRun.food) :=
  ⟨rfl, rfl, by decide, by decide,
    (tick_no_collision_spec demoRun demoRunMoved [] ⟨10, 10⟩ ⟨11, 10⟩
      [⟨9, 10⟩, ⟨8, 10⟩] rfl rfl (by decide) (by decide) (by decide)).2⟩

/-- C2: a tick whose candidate head cell is out of bounds or on the snake
body transitions the engine to game over without applying the move: the
resulting state is exactly `gameOver` of the direction-committed state, so
snake, score and food keep their pre-tick values, both lifecycle flags are
cleared and the tick schedule is cancelled. -/
theorem tick_collision_spec (s : GameState) (draws : List Pos)
    (h0 hd : Pos) (rest : List Pos)
    (hs : s.snake = h0 :: rest)
    (hrun : s.isGameRunning = true)
    (hhd : hd = ⟨h0.x + s.nextDirection.x, h0.y + s.nextDirection.y⟩)
    (hc : checkCollision s.tileCount s.snake hd = true) :
    update s draws = some (gameOver { s with direction := s.nextDirection }) ∧
    (gameOver { s with direction := s.nextDirection }).snake = s.snake ∧
    (gameOver { s with direction := s.nextDirection }).score = s.score ∧
    (gameOver { s with direction := s.nextDirection }).food = s.food ∧
    (gameOver { s with direction := s.nextDirection }).isGameRunning = false ∧
    (gameOver { s with direction := s.nextDirection }).isPaused = false ∧
    (gameOver { s with direction := s.nextDirection }).activeInterval = none := by
  subst hhd
  rw [hs] at hc
  have h1 := gameOver_fields { s with direction := s.nextDirection }
  refine ⟨?_, h1.1, h1.2.2.1, h1.2.1, h1.2.2.2.1, h1.2.2.2.2.1, h1.2.2.2.2.2⟩
  rw [update_cons s draws h0 rest hs]
  rw [if_pos hc]

/-- C2 witness: the spec scenario — head `(19,10)`, direction `(1,0)`,
`tileCount = 20`. -/
theorem tick_collision_spec_witness :
    demoEdge.snake = ⟨19, 10⟩ :: [⟨18, 10⟩, ⟨17, 10⟩] ∧
    demoEdge.isGameRunning = true ∧
    checkCollision demoEdge.tileCount demoEdge.snake ⟨20, 10⟩ = true ∧
    (update demoEdge [] =
        some (gameOver { demoEdge with direction := demoEdge.nextDirection }) ∧
      (gameOver { demoEdge with direction := demoEdge.nextDirection }).snake =
        demoEdge.snake ∧
      (gameOver { demoEdge with direction := demoEdge.nextDirection }).score =
        demoEdge.score ∧
      (gameOver { demoEdge with direction := demoEdge.nextDirection }).food =
        demoEdge.food ∧
      (gameOver { demoEdge with direction := demoEdge.nextDirection }).isGameRunning =
        false ∧
      (gameOver { demoEdge with direction := demoEdge.nextDirection }).isPaused =
        false ∧
      (gameOver { demoEdge with direction := demoEdge.nextDirection }).activeInterval =
        none) :=
  ⟨rfl, rfl, by decide,
    tick_collision_spec demoEdge [] ⟨19, 10⟩ ⟨20, 10⟩ [⟨18, 10⟩, ⟨17, 10⟩]
      rfl rfl (by decide) (by decide)⟩

theorem update_inv (s s' : GameState) (draws : List Pos)
    (hu : update s draws = some s') :
    ∃ h0 rest, s.snake = h0 :: rest ∧
      ((checkCollision s.tileCount (h0 :: rest)
            ⟨h0.x + s.nextDirection.x, h0.y + s.nextDirection.y⟩ = true ∧
          s' = gameOver { s with direction := s.nextDirection }) ∨
       (checkCollision s.tileCount (h0 :: rest)
            ⟨h0.x + s.nextDirection.x, h0.y + s.nextDirection.y⟩ = false ∧
          (h0.x + s.nextDirection.x == s.food.x &&
           h0.y + s.nextDirection.y == s.food.y) = true ∧
          ∃ f, generateFood
              (⟨h0.x + s.nextDirection.x, h0.y + s.nextDirection.y⟩ :: h0 :: rest)
              draws = some f ∧
            s' = { s with direction := s.nextDirection,
                          snake := ⟨h0.x + s.nextDirection.x,
                                    h0.y + s.nextDirection.y⟩ :: h0 :: rest,
                          score := s.score + 10, food := f }) ∨
       (checkCollision s.tileCount (h0 :: rest)
            ⟨h0.x + s.nextDirection.x, h0.y + s.nextDirection.y⟩ = false ∧
          (h0.x + s.nextDirection.x == s.food.x &&
           h0.y + s.nextDirection.y == s.food.y) = false ∧
          s' = { s with direction := s.nextDirection,
                        snake := (⟨h0.x + s.nextDirection.x,
                                   h0.y + s.nextDirection.y⟩ :: h0 :: rest).dropLast })) := by
  cases hsn : s.snake with
  | nil =>
    rw [show update s draws = none from by unfold update; rw [hsn]] at hu
    exact Option.noConfusion hu
  | cons h0 rest =>
    refine ⟨h0, rest, rfl, ?_⟩
    rw [update_cons s draws h0 rest hsn, hsn] at hu
    by_cases hc : checkCollision s.tileCount (h0 :: rest)
        ⟨h0.x + s.nextDirection.x, h0.y + s.nextDirection.y⟩ = true
    · rw [if_pos hc] at hu
      simp only [Option.some.injEq] at hu
      exact Or.inl ⟨hc, hu.symm⟩
    · rw [if_neg hc] at hu
      have hc' := Bool.eq_false_iff.mpr hc
      by_cases he : (h0.x + s.nextDirection.x == s.food.x &&
          h0.y + s.nextDirection.y == s.food.y) = true
      · rw [if_pos he] at hu
        cases hg : generateFood
            (⟨h0.x + s.nextDirection.x, h0.y + s.nextDirection.y⟩ :: h0 :: rest)
            draws with
        | none => rw [hg] at hu; exact Option.noConfusion hu
        | some f =>
          rw [hg] at hu
          simp only [Option.some.injEq] at hu
          exact Or.inr (Or.inl ⟨hc', he, f, rfl, hu.symm⟩)
      · rw [if_neg he] at hu
        simp only [Option.some.injEq] at hu
        exact Or.inr (Or.inr ⟨hc', Bool.eq_false_iff.mpr he, hu.symm⟩)

theorem update_food_inv (s s' : GameState) (draws : List Pos)
    (hfood : s.food ∉ s.snake) (hu : update s draws = some s') :
    s'.food ∉ s'.snake := by
  obtain ⟨h0, rest, hsn, hcase⟩ := update_inv s s' draws hu
  rw [hsn] at hfood
  rcases hcase with ⟨_, rfl⟩ | ⟨_, _, f, hg, rfl⟩ | ⟨_, he, rfl⟩
  · have h1 := gameOver_fields { s with direction := s.nextDirection }
    rw [h1.1, h1.2.1]
    show s.food ∉ s.snake
    rw [hsn]
    exact hfood
  · exact generateFood_not_mem _ _ _ hg
  · dsimp only
    intro hmem
    have hmem' := (List.dropLast_sublist _).subset hmem
    rcases List.mem_cons.mp hmem' with heq | hin
    · rw [Bool.eq_false_iff] at he
      apply he
      simp [heq]
    · exact hfood hin

theorem resetGame_eq (s : GameState) (draws : List Pos) :
    resetGame s draws = (generateFood initialSnake draws).map fun f =>
      { s with snake := initialSnake, direction := ⟨1, 0⟩,
               nextDirection := ⟨1, 0⟩, score := 0, food := f } := by
  unfold resetGame
  cases h : generateFood initialSnake draws <;> simp [h]

theorem startGame_eq (s : GameState) (draws : List Pos)
    (h : s.isGameRunning = false) :
    startGame s draws = (generateFood initialSnake draws).map fun f =>
      { s with snake := initialSnake, direction := ⟨1, 0⟩,
               nextDirection := ⟨1, 0⟩, score := 0, food := f,
               isGameRunning := true, isPaused := false,
               activeInterval := some s.gameSpeed,
               scheduleCount := s.scheduleCount + 1 } := by
  unfold startGame
  rw [h, resetGame_eq]
  cases hg : generateFood initialSnake draws <;> simp [hg]

theorem startGame_food (s s' : GameState) (draws : List Pos)
    (hrun : s.isGameRunning = false) (hst : startGame s draws = some s') :
    s'.food ∉ s'.snake := by
  rw [startGame_eq s draws hrun] at hst
  cases hg : generateFood initialSnake draws with
  | none => rw [hg] at hst; exact Option.noConfusion hst
  | some f =>
    rw [hg] at hst
    simp only [Option.map_some', Option.some.injEq] at hst
    subst hst
    exact generateFood_not_mem _ _ _ hg

theorem applyRequests_direction (reqs : List Pos) (s : GameState) :
    (applyRequests s reqs).direction = s.direction := by
  induction reqs generalizing s with
  | nil => rfl
  | cons r rest ih =>
    show (applyRequests (changeDirection s r) rest).direction = s.direction
    rw [ih, changeDirection_direction]

theorem changeDirection_accepted (s : GameState) (d : Pos)
    (h : ¬((d.x ≠ 0 ∧ s.direction.x ≠ 0) ∨ (d.y ≠ 0 ∧ s.direction.y ≠ 0))) :
    changeDirection s d = { s with nextDirection := d } := by
  rcases not_or.mp h with ⟨hA, hB⟩
  have hc1 : ¬((d.x != 0 && s.direction.x != 0) = true) := by
    simp only [Bool.and_eq_true, bne_iff_ne, ne_eq]
    exact fun hc => hA ⟨hc.1, hc.2⟩
  have hc2 : ¬((d.y != 0 && s.direction.y != 0) = true) := by
    simp only [Bool.and_eq_true, bne_iff_ne, ne_eq]
    exact fun hc => hB ⟨hc.1, hc.2⟩
  unfold changeDirection
  rw [if_neg hc1, if_neg hc2]

theorem changeDirection_rejected (s : GameState) (d : Pos)
    (h : (d.x ≠ 0 ∧ s.direction.x ≠ 0) ∨ (d.y ≠ 0 ∧ s.direction.y ≠ 0)) :
    changeDirection s d = s := by
  unfold changeDirection
  rcases h with ⟨h1, h2⟩ | ⟨h1, h2⟩
  · rw [if_pos (by simp only [Bool.and_eq_true, bne_iff_ne, ne_eq]; exact ⟨h1, h2⟩)]
  · by_cases hc1 : (d.x != 0 && s.direction.x != 0) = true
    · rw [if_pos hc1]
    · rw [if_neg hc1,
        if_pos (by simp only [Bool.and_eq_true, bne_iff_ne, ne_eq]; exact ⟨h1, h2⟩)]

/-- C3: the food cell is never a member of the snake's cells at any
observable point: `generateFood` returns only a cell not occupied by any
snake segment (the first acceptable draw of its rejection-sampling stream),
and the invariant is preserved by every tick and established by
`startGame`/`restartGame`. -/
theorem food_not_on_snake_spec :
    (∀ (snake draws : List Pos) (f : Pos),
        generateFood snake draws = some f → f ∉ snake) ∧
    (∀ (s s' : GameState) (draws : List Pos),
        s.food ∉ s.snake → update s draws = some s' → s'.food ∉ s'.snake) ∧
    (∀ (s s' : GameState) (draws : List Pos),
        s.isGameRunning = false → startGame s draws = some s' →
        s'.food ∉ s'.snake) ∧
    (∀ (s s' : GameState) (draws : List Pos),
        restartGame s draws = some s' → s'.food ∉ s'.snake) := by
  refine ⟨generateFood_not_mem, update_food_inv, startGame_food, ?_⟩
  intro s s' draws h
  exact startGame_food (stopGame s) s' draws rfl h

/-- C3 witness: concrete instances of the three provable modes — a rejected
then accepted draw, a preserved invariant across a tick, and a fresh start. -/
theorem food_not_on_snake_spec_witness :
    generateFood initialSnake [⟨10, 10⟩, ⟨0, 0⟩] = some ⟨0, 0⟩ ∧
    (⟨0, 0⟩ : Pos) ∉ initialSnake ∧
    demoRun.food ∉ demoRun.snake ∧
    update demoRun [] = some demoRunMoved ∧
    demoRunMoved.food ∉ demoRunMoved.snake :=
  ⟨by decide,
   food_not_on_snake_spec.1 initialSnake [⟨10, 10⟩, ⟨0, 0⟩] ⟨0, 0⟩ (by decide),
   by decide, by decide,
   food_not_on_snake_spec.2.1 demoRun demoRunMoved [] (by decide) (by decide)⟩

/-- C4: a direction request `(dx, dy)` is a no-op when `dx ≠ 0` with the
current direction's `x` nonzero, or `dy ≠ 0` with the current `y` nonzero;
otherwise it overwrites the pending direction with `(dx, dy)`, and of
several requests between two tick boundaries an accepted last one is what
sits in the pending slot (last-write-wins).  In particular, with current
direction `(1,0)` a proposal `(-1,0)` never changes the pending slot while
`(0,1)` or `(0,-1)` always does. -/
theorem changeDirection_spec (s : GameState) (d : Pos) :
    ((d.x ≠ 0 ∧ s.direction.x ≠ 0) ∨ (d.y ≠ 0 ∧ s.direction.y ≠ 0) →
        changeDirection s d = s) ∧
    (¬((d.x ≠ 0 ∧ s.direction.x ≠ 0) ∨ (d.y ≠ 0 ∧ s.direction.y ≠ 0)) →
        changeDirection s d = { s with nextDirection := d }) ∧
    (∀ reqs : List Pos,
        ¬((d.x ≠ 0 ∧ s.direction.x ≠ 0) ∨ (d.y ≠ 0 ∧ s.direction.y ≠ 0)) →
        (applyRequests s (reqs ++ [d])).nextDirection = d) ∧
    (s.direction = ⟨1, 0⟩ → d = ⟨-1, 0⟩ → changeDirection s d = s) ∧
    (s.direction = ⟨1, 0⟩ → d = ⟨0, 1⟩ ∨ d = ⟨0, -1⟩ →
        (changeDirection s d).nextDirection = d) := by
  refine ⟨changeDirection_rejected s d, changeDirection_accepted s d, ?_, ?_, ?_⟩
  · intro reqs h
    unfold applyRequests
    rw [List.foldl_append]
    simp only [List.foldl_cons, List.foldl_nil]
    have hdir : (List.foldl changeDirection s reqs).direction = s.direction :=
      applyRequests_direction reqs s
    rw [changeDirection_accepted (List.foldl changeDirection s reqs) d
      (by rw [hdir]; exact h)]
  · intro hdir hd
    apply changeDirection_rejected
    rw [hdir, hd]
    exact Or.inl ⟨by decide, by decide⟩
  · intro hdir hd
    have hacc : ¬((d.x ≠ 0 ∧ s.direction.x ≠ 0) ∨
        (d.y ≠ 0 ∧ s.direction.y ≠ 0)) := by
      rcases hd with rfl | rfl <;> rw [hdir] <;> decide
    rw [changeDirection_accepted s d hacc]

/-- C4 witness: with current direction `(1,0)`, proposal `(-1,0)` is a
no-op, proposal `(0,1)` lands in the pending slot, and the last accepted
request of a burst wins. -/
theorem changeDirection_spec_witness :
    demoRun.direction = ⟨1, 0⟩ ∧
    changeDirection demoRun ⟨-1, 0⟩ = demoRun ∧
    (changeDirection demoRun ⟨0, 1⟩).nextDirection = ⟨0, 1⟩ ∧
    (applyRequests demoRun ([⟨-1, 0⟩, ⟨0, -1⟩] ++ [⟨0, 1⟩])).nextDirection =
      ⟨0, 1⟩ :=
  ⟨rfl,
   (changeDirection_spec demoRun ⟨-1, 0⟩).2.2.2.1 rfl rfl,
   (changeDirection_spec demoRun ⟨0, 1⟩).2.2.2.2 rfl (Or.inl rfl),
   (changeDirection_spec demoRun ⟨0, 1⟩).2.2.1 [⟨-1, 0⟩, ⟨0, -1⟩] (by decide)⟩

theorem changeDirection_frame (s : GameState) (d : Pos) :
    (changeDirection s d).isGameRunning = s.isGameRunning ∧
    (changeDirection s d).isPaused = s.isPaused ∧
    (changeDirection s d).storeWrites = s.storeWrites ∧
    (changeDirection s d).highScore = s.highScore := by
  unfold changeDirection
  split_ifs <;> exact ⟨rfl, rfl, rfl, rfl⟩

theorem setDifficulty_frame (s : GameState) (level : String) :
    (setDifficulty s level).isGameRunning = s.isGameRunning ∧
    (setDifficulty s level).isPaused = s.isPaused ∧
    (setDifficulty s level).storeWrites = s.storeWrites ∧
    (setDifficulty s level).highScore = s.highScore := by
  unfold setDifficulty
  dsimp only
  split_ifs <;> exact ⟨rfl, rfl, rfl, rfl⟩

theorem update_frame (s s' : GameState) (draws : List Pos)
    (hu : update s draws = some s') (hr : s'.isGameRunning = true) :
    s'.storeWrites = s.storeWrites ∧ s'.highScore = s.highScore := by
  obtain ⟨h0, rest, hsn, hcase⟩ := update_inv s s' draws hu
  rcases hcase with ⟨_, rfl⟩ | ⟨_, _, f, _, rfl⟩ | ⟨_, _, rfl⟩
  · rw [(gameOver_fields { s with direction := s.nextDirection }).2.2.2.1] at hr
    exact absurd hr Bool.false_ne_true
  · exact ⟨rfl, rfl⟩
  · exact ⟨rfl, rfl⟩

theorem update_flagsOK (s s' : GameState) (draws : List Pos)
    (hOK : flagsOK s) (hu : update s draws = some s') : flagsOK s' := by
  obtain ⟨h0, rest, hsn, hcase⟩ := update_inv s s' draws hu
  rcases hcase with ⟨_, rfl⟩ | ⟨_, _, f, _, rfl⟩ | ⟨_, _, rfl⟩
  · intro hp
    rw [(gameOver_fields { s with direction := s.nextDirection }).2.2.2.2.1] at hp
    exact absurd hp Bool.false_ne_true
  · exact hOK
  · exact hOK

theorem update_isGameRunning_false (s s' : GameState) (draws : List Pos)
    (hu : update s draws = some s') (h : s.isGameRunning = false) :
    s'.isGameRunning = false := by
  obtain ⟨h0, rest, hsn, hcase⟩ := update_inv s s' draws hu
  rcases hcase with ⟨_, rfl⟩ | ⟨_, _, f, _, rfl⟩ | ⟨_, _, rfl⟩
  · exact (gameOver_fields { s with direction := s.nextDirection }).2.2.2.1
  · exact h
  · exact h

theorem startGame_inv (s s' : GameState) (draws : List Pos)
    (h : startGame s draws = some s') :
    s' = s ∨ ∃ f, generateFood initialSnake draws = some f ∧
      s' = { s with snake := initialSnake, direction := ⟨1, 0⟩,
                    nextDirection := ⟨1, 0⟩, score := 0, food := f,
                    isGameRunning := true, isPaused := false,
                    activeInterval := some s.gameSpeed,
                    scheduleCount := s.scheduleCount + 1 } := by
  by_cases hr : s.isGameRunning = true
  · left
    unfold startGame at h
    rw [if_pos hr] at h
    exact (Option.some.inj h).symm
  · right
    rw [startGame_eq s draws (Bool.eq_false_iff.mpr hr)] at h
    cases hg : generateFood initialSnake draws with
    | none => rw [hg] at h; exact Option.noConfusion h
    | some f =>
      rw [hg] at h
      simp only [Option.map_some', Option.some.injEq] at h
      exact ⟨f, rfl, h.symm⟩

theorem startGame_isGameRunning (s s' : GameState) (draws : List Pos)
    (hr : s.isGameRunning = false) (h : startGame s draws = some s') :
    s'.isGameRunning = true := by
  rw [startGame_eq s draws hr] at h
  cases hg : generateFood initialSnake draws with
  | none => rw [hg] at h; exact Option.noConfusion h
  | some f =>
    rw [hg] at h
    simp only [Option.map_some', Option.some.injEq] at h
    subst h
    rfl

/-- C5 counterexample: from the game-over state reached out of `demoRun`, a
bare `startGame()` (not `restartGame()`) transitions the engine to running —
the `isGameRunning` guard does not block it, because game over cleared that
flag.  This refutes the claim that `restart()` is the only command moving
the engine from game over to running. -/
theorem gameover_start_counterexample :
    startGame (gameOver demoRun) [⟨0, 0⟩] = some demoStarted ∧
    demoStarted.isGameRunning = true := by
  constructor <;> decide

/-- C5 amended: from any game-over state, a command produces a running
engine exactly when it is `start()` or `restart()`; the remaining commands
(pause, resume, stop, tick, direction change, difficulty change) all leave
the engine not running. -/
theorem gameover_to_running_iff (s0 : GameState) (c : Cmd) (s' : GameState)
    (h : execCmd (gameOver s0) c = some s') :
    (s'.isGameRunning = true ↔ Cmd.isStartLike c = true) := by
  have hgr : (gameOver s0).isGameRunning = false := (gameOver_fields s0).2.2.2.1
  cases c with
  | start draws =>
    simp only [execCmd] at h
    have hr := startGame_isGameRunning (gameOver s0) s' draws hgr h
    simp [hr, Cmd.isStartLike]
  | pause =>
    simp only [execCmd, Option.some.injEq] at h
    subst h
    have hp : pauseGame (gameOver s0) = gameOver s0 := by
      unfold pauseGame
      rw [if_pos (by rw [hgr]; simp)]
    rw [hp, hgr]
    simp [Cmd.isStartLike]
  | resume =>
    simp only [execCmd, Option.some.injEq] at h
    subst h
    have hp : resumeGame (gameOver s0) = gameOver s0 := by
      unfold resumeGame
      rw [if_pos (by rw [hgr]; simp)]
    rw [hp, hgr]
    simp [Cmd.isStartLike]
  | restart draws =>
    simp only [execCmd] at h
    unfold restartGame at h
    have hr := startGame_isGameRunning (stopGame (gameOver s0)) s' draws rfl h
    simp [hr, Cmd.isStartLike]
  | stop =>
    simp only [execCmd, Option.some.injEq] at h
    subst h
    simp [stopGame, Cmd.isStartLike]
  | tick draws =>
    simp only [execCmd] at h
    have hr := update_isGameRunning_false (gameOver s0) s' draws h hgr
    simp [hr, Cmd.isStartLike]
  | changeDir d =>
    simp only [execCmd, Option.some.injEq] at h
    subst h
    rw [(changeDirection_frame (gameOver s0) d).1, hgr]
    simp [Cmd.isStartLike]
  | setDiff level =>
    simp only [execCmd, Option.some.injEq] at h
    subst h
    rw [(setDifficulty_frame (gameOver s0) level).1, hgr]
    simp [Cmd.isStartLike]

/-- C5 amended witness: the concrete `start` command from the game-over
state reached out of `demoRun`. -/
theorem gameover_to_running_iff_witness :
    execCmd (gameOver demoRun) (Cmd.start [⟨0, 0⟩]) = some demoStarted ∧
    (demoStarted.isGameRunning = true ↔
      Cmd.isStartLike (Cmd.start [⟨0, 0⟩]) = true) :=
  ⟨by decide,
   gameover_to_running_iff demoRun (Cmd.start [⟨0, 0⟩]) demoStarted (by decide)⟩

/-- C6: the high-score comparison and the store write happen exactly once,
synchronously, inside the game-over transition: there, `score > highScore`
makes the high score become the score with exactly one store write appended,
and otherwise nothing is written and the high score is unchanged; a tick
that leaves the engine running writes nothing and keeps the high score, as
do direction changes, pause, resume, difficulty changes and `startGame`. -/
theorem high_score_persistence_spec (s : GameState) :
    (s.highScore < s.score →
        (gameOver s).highScore = s.score ∧
        (gameOver s).storeWrites = s.storeWrites ++ [s.score]) ∧
    (s.score ≤ s.highScore →
        (gameOver s).highScore = s.highScore ∧
        (gameOver s).storeWrites = s.storeWrites) ∧
    (∀ (s' : GameState) (draws : List Pos),
        update s draws = some s' → s'.isGameRunning = true →
        s'.storeWrites = s.storeWrites ∧ s'.highScore = s.highScore) ∧
    (∀ d, (changeDirection s d).storeWrites = s.storeWrites ∧
        (changeDirection s d).highScore = s.highScore) ∧
    ((pauseGame s).storeWrites = s.storeWrites ∧
        (pauseGame s).highScore = s.highScore) ∧
    ((resumeGame s).storeWrites = s.storeWrites ∧
        (resumeGame s).highScore = s.highScore) ∧
    (∀ level, (setDifficulty s level).storeWrites = s.storeWrites ∧
        (setDifficulty s level).highScore = s.highScore) ∧
    (∀ (s' : GameState) (draws : List Pos), startGame s draws = some s' →
        s'.storeWrites = s.storeWrites ∧ s'.highScore = s.highScore) ∧
    (∀ item, (constructorState item).storeWrites = []) := by
  refine ⟨?_, ?_, ?_, ?_, ?_, ?_, ?_, ?_, fun item => rfl⟩
  · intro h
    constructor <;> simp [gameOver, stopGame, h]
  · intro h
    constructor <;> simp [gameOver, stopGame, not_lt.mpr h]
  · intro s' draws hu hr
    exact update_frame s s' draws hu hr
  · intro d
    exact ⟨(changeDirection_frame s d).2.2.1, (changeDirection_frame s d).2.2.2⟩
  · unfold pauseGame
    split_ifs <;> exact ⟨rfl, rfl⟩
  · unfold resumeGame
    split_ifs <;> exact ⟨rfl, rfl⟩
  · intro level
    exact ⟨(setDifficulty_frame s level).2.2.1, (setDifficulty_frame s level).2.2.2⟩
  · intro s' draws h
    rcases startGame_inv s s' draws h with rfl | ⟨f, _, rfl⟩
    · exact ⟨rfl, rfl⟩
    · exact ⟨rfl, rfl⟩

/-- C6 witness: the spec scenario — score 120, stored high score 100, at the
moment game over is entered: the high score becomes 120 and exactly one
store write (of 120) happens. -/
theorem high_score_persistence_spec_witness :
    demoScore.highScore < demoScore.score ∧
    (gameOver demoScore).highScore = demoScore.score ∧
    (gameOver demoScore).storeWrites = demoScore.storeWrites ++ [demoScore.score] :=
  ⟨by decide,
   ((high_score_persistence_spec demoScore).1 (by decide)).1,
   ((high_score_persistence_spec demoScore).1 (by decide)).2⟩

/-- C7: the illegal flag combination `isPaused = true` with
`isGameRunning = false` is unreachable: it fails to hold in no state
produced by construction, and every public command and every tick preserves
its absence. -/
theorem flags_invariant_spec :
    (∀ (item : Option String) (draws : List Pos) (s0 : GameState),
        mkGame item draws = some s0 → flagsOK s0) ∧
    (∀ (s : GameState) (c : Cmd) (s' : GameState),
        flagsOK s → execCmd s c = some s' → flagsOK s') := by
  constructor
  · intro item draws s0 h
    unfold mkGame at h
    rw [resetGame_eq] at h
    cases hg : generateFood initialSnake draws with
    | none => rw [hg] at h; exact Option.noConfusion h
    | some f =>
      rw [hg] at h
      simp only [Option.map_some', Option.some.injEq] at h
      subst h
      intro hp
      exact absurd hp Bool.false_ne_true
  · intro s c s' hOK h
    cases c with
    | start draws =>
      simp only [execCmd] at h
      rcases startGame_inv s s' draws h with rfl | ⟨f, _, rfl⟩
      · exact hOK
      · intro hp
        exact absurd hp Bool.false_ne_true
    | pause =>
      simp only [execCmd, Option.some.injEq] at h
      subst h
      by_cases hb : s.isGameRunning = true
      · by_cases hq : s.isPaused = true
        · have hz : pauseGame s = s := by
            unfold pauseGame
            rw [if_pos (by rw [hq]; simp)]
          rw [hz]
          exact hOK
        · have hfq : s.isPaused = false := Bool.eq_false_iff.mpr hq
          have hz : pauseGame s =
              { s with isPaused := true, activeInterval := none } := by
            unfold pauseGame
            rw [if_neg (by rw [hb, hfq]; simp)]
          rw [hz]
          intro _
          exact hb
      · have hfb : s.isGameRunning = false := Bool.eq_false_iff.mpr hb
        have hz : pauseGame s = s := by
          unfold pauseGame
          rw [if_pos (by rw [hfb]; simp)]
        rw [hz]
        exact hOK
    | resume =>
      simp only [execCmd, Option.some.injEq] at h
      subst h
      by_cases hq : s.isPaused = true
      · by_cases hb : s.isGameRunning = true
        · have hz : resumeGame s =
              { s with isPaused := false, activeInterval := some s.gameSpeed,
                       scheduleCount := s.scheduleCount + 1 } := by
            unfold resumeGame
            rw [if_neg (by rw [hb, hq]; simp)]
          rw [hz]
          intro hp
          exact absurd hp Bool.false_ne_true
        · have hfb : s.isGameRunning = false := Bool.eq_false_iff.mpr hb
          have hz : resumeGame s = s := by
            unfold resumeGame
            rw [if_pos (by rw [hfb]; simp)]
          rw [hz]
          exact hOK
      · have hfq : s.isPaused = false := Bool.eq_false_iff.mpr hq
        have hz : resumeGame s = s := by
          unfold resumeGame
          rw [if_pos (by rw [hfq]; simp)]
        rw [hz]
        exact hOK
    | restart draws =>
      simp only [execCmd] at h
      unfold restartGame at h
      rcases startGame_inv (stopGame s) s' draws h with rfl | ⟨f, _, rfl⟩
      · intro hp
        exact absurd hp Bool.false_ne_true
      · intro hp
        exact absurd hp Bool.false_ne_true
    | stop =>
      simp only [execCmd, Option.some.injEq] at h
      subst h
      intro hp
      exact absurd hp Bool.false_ne_true
    | tick draws =>
      simp only [execCmd] at h
      exact update_flagsOK s s' draws hOK h
    | changeDir d =>
      simp only [execCmd, Option.some.injEq] at h
      subst h
      intro hp
      rw [(changeDirection_frame s d).2.1] at hp
      rw [(changeDirection_frame s d).1]
      exact hOK hp
    | setDiff level =>
      simp only [execCmd, Option.some.injEq] at h
      subst h
      intro hp
      rw [(setDifficulty_frame s level).2.1] at hp
      rw [(setDifficulty_frame s level).1]
      exact hOK hp

/-- C7 witness: the invariant holds in a freshly constructed state and is
preserved by a concrete `pause` command from `demoRun`. -/
theorem flags_invariant_spec_witness :
    mkGame none [⟨0, 0⟩] = some demoFresh ∧ flagsOK demoFresh ∧
    (execCmd demoRun Cmd.pause = some (pauseGame demoRun) ∧
      flagsOK demoRun ∧ flagsOK (pauseGame demoRun)) :=
  ⟨by decide,
   flags_invariant_spec.1 none [⟨0, 0⟩] demoFresh (by decide),
   rfl, fun _ => rfl,
   flags_invariant_spec.2 demoRun Cmd.pause (pauseGame demoRun)
     (fun _ => rfl) rfl⟩

/-- C8: `pauseGame` is idempotent — two consecutive calls produce the same
engine state as one — and calling it while the engine is not running, or
already paused, changes nothing. -/
theorem pause_idempotent_spec (s : GameState) :
    pauseGame (pauseGame s) = pauseGame s ∧
    (s.isGameRunning = false ∨ s.isPaused = true → pauseGame s = s) := by
  constructor
  · by_cases hc : (!s.isGameRunning || s.isPaused) = true
    · have hz : pauseGame s = s := by
        unfold pauseGame
        rw [if_pos hc]
      rw [hz]
      exact hz
    · have hz : pauseGame s =
          { s with isPaused := true, activeInterval := none } := by
        unfold pauseGame
        rw [if_neg hc]
      rw [hz]
      unfold pauseGame
      rw [if_pos (by simp)]
  · intro h
    unfold pauseGame
    rcases h with h | h
    · rw [if_pos (by rw [h]; simp)]
    · rw [if_pos (by rw [h]; simp)]

/-- C8 witness: idempotence at `demoRun` and the no-op at a freshly
constructed (not running) state. -/
theorem pause_idempotent_spec_witness :
    pauseGame (pauseGame demoRun) = pauseGame demoRun ∧
    (demoFresh.isGameRunning = false ∨ demoFresh.isPaused = true) ∧
    pauseGame demoFresh = demoFresh :=
  ⟨(pause_idempotent_spec demoRun).1,
   Or.inl rfl,
   (pause_idempotent_spec demoFresh).2 (Or.inl rfl)⟩

/-- C9: at construction the high score degrades to 0 when the store yields
no usable value — an absent (or unavailable) key, or content whose
`parseInt` is `NaN` — and otherwise is initialised to the stored integer;
the constructor's field holds exactly `readHighScore` of the store item. -/
theorem high_score_init_spec :
    (∀ item, (constructorState item).highScore = readHighScore item) ∧
    readHighScore none = 0 ∧
    (∀ str, parseIntJS str = none → readHighScore (some str) = 0) ∧
    (∀ str n, parseIntJS str = some n → readHighScore (some str) = n) := by
  refine ⟨fun item => rfl, rfl, ?_, ?_⟩
  · intro str h
    unfold readHighScore
    dsimp only
    rw [h]
  · intro str n h
    unfold readHighScore
    dsimp only
    rw [h]

/-- C9 witness: a non-numeric stored string gives 0, a numeric one gives
its value, and an absent key initialises the constructor's high score to 0. -/
theorem high_score_init_spec_witness :
    parseIntJS "abc" = none ∧ readHighScore (some "abc") = 0 ∧
    parseIntJS "120" = some 120 ∧ readHighScore (some "120") = 120 ∧
    (constructorState none).highScore = 0 :=
  ⟨by decide,
   high_score_init_spec.2.2.1 "abc" (by decide),
   by decide,
   high_score_init_spec.2.2.2 "120" 120 (by decide),
   Eq.trans (high_score_init_spec.1 none) high_score_init_spec.2.1⟩

/-- C10: `setDifficulty` with a level outside easy/medium/hard leaves
`gameSpeed` unchanged; if the engine is running and not paused the schedule
is nevertheless torn down and re-armed at the unchanged interval (one more
`setInterval` call, same interval) with every other field unchanged, and
otherwise the whole state is unchanged. -/
theorem setDifficulty_unknown_spec (s : GameState) (level : String)
    (h1 : level ≠ "easy") (h2 : level ≠ "medium") (h3 : level ≠ "hard") :
    (setDifficulty s level).gameSpeed = s.gameSpeed ∧
    (s.isGameRunning = true ∧ s.isPaused = false →
        setDifficulty s level =
          { s with activeInterval := some s.gameSpeed,
                   scheduleCount := s.scheduleCount + 1 }) ∧
    (¬(s.isGameRunning = true ∧ s.isPaused = false) →
        setDifficulty s level = s) := by
  have hb1 : ¬((level == "easy") = true) := by
    simp only [beq_iff_eq]
    exact h1
  have hb2 : ¬((level == "medium") = true) := by
    simp only [beq_iff_eq]
    exact h2
  have hb3 : ¬((level == "hard") = true) := by
    simp only [beq_iff_eq]
    exact h3
  unfold setDifficulty
  rw [if_neg hb1, if_neg hb2, if_neg hb3]
  dsimp only
  refine ⟨?_, ?_, ?_⟩
  · split_ifs <;> rfl
  · rintro ⟨hr, hp⟩
    rw [if_pos (by rw [hr, hp]; rfl)]
  · intro hn
    rw [if_neg ?_]
    intro hc
    rw [Bool.and_eq_true, Bool.not_eq_true'] at hc
    exact hn hc

/-- C10 witness: `setDifficulty` with the unknown level `"insane"` from the
running, unpaused `demoRun` keeps the speed at 150, re-arms the schedule at
that speed, and changes no other field; from the idle `demoFresh` it is a
complete no-op. -/
theorem setDifficulty_unknown_spec_witness :
    (setDifficulty demoRun "insane").gameSpeed = demoRun.gameSpeed ∧
    (demoRun.isGameRunning = true ∧ demoRun.isPaused = false) ∧
    setDifficulty demoRun "insane" =
      { demoRun with activeInterval := some demoRun.gameSpeed,
                     scheduleCount := demoRun.scheduleCount + 1 } ∧
    setDifficulty demoFresh "insane" = demoFresh :=
  ⟨(setDifficulty_unknown_spec demoRun "insane" (by decide) (by decide)
      (by decide)).1,
   ⟨rfl, rfl⟩,
   (setDifficulty_unknown_spec demoRun "insane" (by decide) (by decide)
      (by decide)).2.1 ⟨rfl, rfl⟩,
   (setDifficulty_unknown_spec demoFresh "insane" (by decide) (by decide)
      (by decide)).2.2 (by simp [demoFresh])⟩
